import Mathlib

/-!
Shallow embedding of the valuation and aggregation engine of the
simple-finance repository.  JavaScript numbers are modelled as rationals,
dates as integer day indices (and instants as integer milliseconds where
midnight truncation matters).  Fallible code returns `Except String`;
collaborator calls (market-data provider, currency-rate provider) are
modelled as explicit `Option`-valued inputs.
-/

namespace SimpleFinance

/-- Milliseconds in one day, as used by JavaScript date arithmetic. -/
def msPerDay : ℤ := 86400000

/-- JavaScript Math.round: rounds to the nearest integer, ties toward plus
infinity (Math.round (-2.5) = -2, Math.round (2.5) = 3). -/
def jsRound (x : ℚ) : ℤ := ⌊x + 1/2⌋

/-- The ubiquitous `Math.round (x * 100) / 100` two-decimal rounding. -/
def round2 (x : ℚ) : ℚ := (jsRound (x * 100) : ℚ) / 100

/-- Exchange rate record from exchange-rate-client.ts (fields `from`/`to`
renamed `src`/`dst`; the timestamp is an integer instant). -/
structure ExchangeRate where
  src : String
  dst : String
  rate : ℚ
  timestamp : ℤ
  deriving DecidableEq

/-- convertUsdToEur from exchange-rate-client.ts lines 121-123:
`Math.round(usdAmount * rate * 100) / 100`. -/
def convertUsdToEur (usdAmount rate : ℚ) : ℚ := round2 (usdAmount * rate)

/-- Fallback USD to EUR rate from currency-converter.ts line 18. -/
def FALLBACK_USD_TO_EUR_RATE : ℚ := 92/100

/-- convertToEur from currency-converter.ts lines 27-31.  The collaborator
call `fetchUsdToEurRate()` is modelled by the explicit `fetched` input
(`none` = the fetch failed / returned null). -/
def convertToEur (fetched : Option ExchangeRate) (usdAmount : ℚ) : ℚ :=
  let rate := match fetched with
    | some e => e.rate
    | none => FALLBACK_USD_TO_EUR_RATE
  convertUsdToEur usdAmount rate

/-- Detail record of a YAHOO_FINANCE product (product.types.ts). -/
structure YahooDetail where
  symbol : String
  purchasePrice : ℚ
  purchaseDate : ℤ
  deriving DecidableEq

/-- Detail record of a CUSTOM product (product.types.ts). -/
structure CustomDetail where
  annualReturnRate : ℚ
  initialInvestment : ℚ
  investmentDate : ℤ
  currency : String
  deriving DecidableEq

/-- Tagged union of the two product kinds (product.types.ts). -/
inductive ProductDetail where
  | yahoo (d : YahooDetail)
  | custom (d : CustomDetail)
  deriving DecidableEq

/-- FinancialProduct from product.types.ts (timestamps omitted: no claim
mentions them). -/
structure FinancialProduct where
  id : String
  name : String
  quantity : ℚ
  detail : ProductDetail
  deriving DecidableEq

/-- calculateCustomProductValueSync from custom-product-calculator.ts lines
60-86.  `differenceInDays(currentDate, investmentDate)` on whole-day dates is
the plain difference of day indices. -/
def calculateCustomProductValueSync (initialInvestmentEur annualReturnRate : ℚ)
    (investmentDate currentDate : ℤ) : Except String ℚ :=
  if initialInvestmentEur ≤ 0 then
    .error "Initial investment must be positive"
  else if annualReturnRate < -1 then
    .error "Annual return rate cannot be less than -100%"
  else
    let daysSinceInvestment : ℤ := currentDate - investmentDate
    if daysSinceInvestment < 0 then
      .error "Investment date cannot be in the future"
    else
      let dailyRate := annualReturnRate / 365
      .ok (round2 (initialInvestmentEur * (1 + dailyRate) ^ daysSinceInvestment.toNat))

/-- calculateCustomProductValue from custom-product-calculator.ts lines 21-47:
the async variant; its principal is already in EUR and its body is the same
guarded compound-interest formula as the sync variant. -/
def calculateCustomProductValue (initialInvestmentEur annualReturnRate : ℚ)
    (investmentDate currentDate : ℤ) : Except String ℚ :=
  if initialInvestmentEur ≤ 0 then
    .error "Initial investment must be positive"
  else if annualReturnRate < -1 then
    .error "Annual return rate cannot be less than -100%"
  else
    let daysSinceInvestment : ℤ := currentDate - investmentDate
    if daysSinceInvestment < 0 then
      .error "Investment date cannot be in the future"
    else
      let dailyRate := annualReturnRate / 365
      .ok (round2 (initialInvestmentEur * (1 + dailyRate) ^ daysSinceInvestment.toNat))

/-- Raw quote as returned by the yahoo-finance2 collaborator inside
fetchYahooQuoteServer (server-client.ts): price, currency and timestamp may
each be absent. -/
structure ProviderQuote where
  symbol : String
  regularMarketPrice : Option ℚ
  currency : Option String
  regularMarketTime : Option ℤ
  shortName : Option String
  longName : Option String
  deriving DecidableEq

/-- Normalized quote produced by fetchYahooQuoteServer (server-client.ts
lines 14-23), prices in EUR. -/
structure YahooQuote where
  symbol : String
  regularMarketPrice : ℚ
  regularMarketPriceUsd : ℚ
  regularMarketTime : ℤ
  currency : String
  originalCurrency : String
  shortName : Option String
  longName : Option String
  deriving DecidableEq

/-- JavaScript String.prototype.trim: strips leading and trailing
whitespace. -/
def jsTrim (s : String) : String :=
  ⟨((s.data.dropWhile Char.isWhitespace).reverse.dropWhile Char.isWhitespace).reverse⟩

/-- JavaScript `a || b` on an optional string: empty string and undefined
both fall through to the default. -/
def jsOrStr (a : Option String) (b : String) : String :=
  match a with
  | some s => if s = "" then b else s
  | none => b

/-- JavaScript `s || undefined` on an optional string. -/
def jsOrUndef (a : Option String) : Option String :=
  match a with
  | some s => if s = "" then none else some s
  | none => none

/-- fetchYahooQuoteServer from server-client.ts lines 37-82.  The
`yahooFinance.quote(symbol)` collaborator call is the `provider` input
(`none` = it threw or returned nothing); the rate fetch inside
`convertToEur` is the `rateFetch` input; `now` stands for `new Date()`. -/
def fetchYahooQuoteServer (symbol : String) (provider : Option ProviderQuote)
    (rateFetch : Option ExchangeRate) (now : ℤ) : Option YahooQuote :=
  if (jsTrim symbol).length = 0 then none
  else
    match provider with
    | none => none
    | some quote =>
      match quote.regularMarketPrice with
      | none => none
      | some priceUsd =>
        let originalCurrency := jsOrStr quote.currency "USD"
        let priceEur : ℚ :=
          if originalCurrency = "EUR" then priceUsd
          else convertToEur rateFetch priceUsd
        some
          { symbol := quote.symbol
            regularMarketPrice := priceEur
            regularMarketPriceUsd := if originalCurrency = "USD" then priceUsd else priceEur
            regularMarketTime := quote.regularMarketTime.getD now
            currency := "EUR"
            originalCurrency := originalCurrency
            shortName := jsOrUndef quote.shortName
            longName := jsOrUndef quote.longName }

/-- ProductValue from portfolio-statistics.ts lines 18-23. -/
structure ProductValue where
  productId : String
  name : String
  currentValue : ℚ
  initialInvestment : ℚ
  deriving DecidableEq

/-- calculateProductValue from portfolio-statistics.ts lines 33-63.
`currentPrice` is `currentPrices.get(product.id)` (`none` = absent); the
JavaScript guard `if (!currentPrice)` also fires on a present price of 0. -/
def calculateProductValue (product : FinancialProduct) (currentPrice : Option ℚ)
    (currentDate : ℤ) : Except String ProductValue :=
  match product.detail with
  | .yahoo _ =>
    match currentPrice with
    | none => .error "Current price required for Yahoo Finance products"
    | some price =>
      if price = 0 then .error "Current price required for Yahoo Finance products"
      else
        .ok { productId := product.id
              name := product.name
              currentValue := price * product.quantity
              initialInvestment := 0 }
  | .custom c =>
    match calculateCustomProductValue c.initialInvestment
      c.annualReturnRate c.investmentDate currentDate with
    | .error e => .error e
    | .ok currentValue =>
      .ok { productId := product.id
            name := product.name
            currentValue := currentValue * product.quantity
            initialInvestment := c.initialInvestment * product.quantity }

/-- Promise.all over fallible per-element computations: every element must
succeed, otherwise the first rejection propagates. -/
def mapExcept (f : α → Except ε β) : List α → Except ε (List β)
  | [] => .ok []
  | a :: as =>
    match f a with
    | .error e => .error e
    | .ok b =>
      match mapExcept f as with
      | .error e => .error e
      | .ok bs => .ok (b :: bs)

/-- PortfolioStatistics from product.types.ts lines 136-144. -/
structure PortfolioStatistics where
  totalValue : ℚ
  totalInvestment : ℚ
  totalReturn : ℚ
  totalReturnPercentage : ℚ
  dailyChange : ℚ
  dailyChangePercentage : ℚ
  productCount : ℕ
  deriving DecidableEq

/-- Price passed to calculateProductValue for one product
(portfolio-statistics.ts lines 86-89): the map price for a Yahoo product,
undefined for a custom product. -/
def priceFor (currentPrices : List (String × ℚ)) (product : FinancialProduct) : Option ℚ :=
  match product.detail with
  | .yahoo _ => currentPrices.lookup product.id
  | .custom _ => none

/-- calculatePortfolioStatistics from portfolio-statistics.ts lines 74-125.
`currentPrices` is the id-keyed price map, `previousDayValues` the optional
previous-day map. -/
def calculatePortfolioStatistics (products : List FinancialProduct)
    (currentPrices : List (String × ℚ))
    (previousDayValues : Option (List (String × ℚ)))
    (currentDate : ℤ) : Except String PortfolioStatistics :=
  match mapExcept (fun product =>
    calculateProductValue product (priceFor currentPrices product) currentDate) products with
  | .error e => .error e
  | .ok productValues =>
  let totalValue := (productValues.map (fun v => v.currentValue)).sum
  let totalInvestment := (productValues.map (fun v => v.initialInvestment)).sum
  let previousTotalValue := match previousDayValues with
    | none => 0
    | some prev => (products.map (fun p => (prev.lookup p.id).getD 0)).sum
  let totalReturn := totalValue - totalInvestment
  let totalReturnPercentage :=
    if totalInvestment > 0 then totalReturn / totalInvestment * 100 else 0
  let dailyChange := match previousDayValues with
    | none => 0
    | some _ => totalValue - previousTotalValue
  let dailyChangePercentage := match previousDayValues with
    | none => 0
    | some _ =>
      if previousTotalValue > 0 then
        (totalValue - previousTotalValue) / previousTotalValue * 100
      else 0
  .ok { totalValue := round2 totalValue
        totalInvestment := round2 totalInvestment
        totalReturn := round2 totalReturn
        totalReturnPercentage := round2 totalReturnPercentage
        dailyChange := round2 dailyChange
        dailyChangePercentage := round2 dailyChangePercentage
        productCount := products.length }

/-- ProfitRates from profit-rate-calculator.ts lines 13-20: daily, weekly and
monthly profit in EUR. -/
structure ProfitRates where
  daily : ℚ
  weekly : ℚ
  monthly : ℚ
  deriving DecidableEq

/-- calculateDailyProfit from profit-rate-calculator.ts lines 31-40. -/
def calculateDailyProfit (initialInvestmentEur annualReturnRate quantity : ℚ) : ℚ :=
  let totalInvestment := initialInvestmentEur * quantity
  let dailyRate := annualReturnRate / 365
  totalInvestment * dailyRate

/-- Predicate for the filter `p.type === 'CUSTOM'`. -/
def isCustom (p : FinancialProduct) : Bool :=
  match p.detail with
  | .custom _ => true
  | .yahoo _ => false

/-- calculateProfitRatesSync from profit-rate-calculator.ts lines 93-122. -/
def calculateProfitRatesSync (products : List FinancialProduct) : ProfitRates :=
  let customProducts := products.filter isCustom
  if customProducts.isEmpty then
    { daily := 0, weekly := 0, monthly := 0 }
  else
    let totalDailyProfit := customProducts.foldl (fun acc product =>
      match product.detail with
      | .custom c =>
        acc + calculateDailyProfit c.initialInvestment c.annualReturnRate product.quantity
      | .yahoo _ => acc) 0
    { daily := round2 totalDailyProfit
      weekly := round2 (totalDailyProfit * 7)
      monthly := round2 (totalDailyProfit * 30) }

/-- Accumulator of the DashboardClient reduce (dashboard-client.tsx lines
356-380). -/
structure DashboardStats where
  totalValue : ℚ
  totalInvestment : ℚ
  productCount : ℕ
  deriving DecidableEq

/-- One step of the DashboardClient statistics reduce (dashboard-client.tsx
lines 357-374). -/
def dashboardStep (acc : DashboardStats) (pv : FinancialProduct × ℚ) : DashboardStats :=
  let product := pv.1
  let currentValue := pv.2
  let totalValue := currentValue * product.quantity
  let acc1 : DashboardStats :=
    { acc with
      totalValue := acc.totalValue + totalValue
      productCount := acc.productCount + 1 }
  match product.detail with
  | .custom c =>
    { acc1 with totalInvestment := acc1.totalInvestment + c.initialInvestment * product.quantity }
  | .yahoo y =>
    { acc1 with totalInvestment := acc1.totalInvestment + y.purchasePrice * product.quantity }

/-- The DashboardClient statistics reduce over products enriched with their
current value (dashboard-client.tsx lines 356-380). -/
def dashboardReduce (productsWithValues : List (FinancialProduct × ℚ)) : DashboardStats :=
  productsWithValues.foldl dashboardStep
    { totalValue := 0, totalInvestment := 0, productCount := 0 }

/-- totalReturn derived from the dashboard reduce (dashboard-client.tsx line
382). -/
def dashboardTotalReturn (s : DashboardStats) : ℚ := s.totalValue - s.totalInvestment

/-- totalReturnPercentage derived from the dashboard reduce
(dashboard-client.tsx lines 383-384). -/
def dashboardTotalReturnPercentage (s : DashboardStats) : ℚ :=
  if s.totalInvestment > 0 then dashboardTotalReturn s / s.totalInvestment * 100 else 0

/-- Per-product current value on the dashboard server page (dashboard
page.tsx lines 36-58): a missing market quote degrades to 0, a custom
product is valued by the compound-interest calculator.  `resolveQuote`
models `fetchYahooQuoteServer` per symbol. -/
def dashboardCurrentValue (product : FinancialProduct)
    (resolveQuote : String → Option YahooQuote) (currentDate : ℤ) : Except String ℚ :=
  match product.detail with
  | .yahoo y =>
    .ok (match resolveQuote y.symbol with
      | some quote => quote.regularMarketPrice
      | none => 0)
  | .custom c =>
    calculateCustomProductValue c.initialInvestment c.annualReturnRate
      c.investmentDate currentDate

/-- PortfolioSnapshot record (date in integer milliseconds, value in EUR). -/
structure Snapshot where
  date : ℤ
  value : ℚ
  deriving DecidableEq

/-- upsertPortfolioSnapshot from portfolio-snapshot-repository.ts lines
85-101: update the snapshot with this date if one exists, else create it. -/
def upsertPortfolioSnapshot (db : List Snapshot) (date : ℤ) (value : ℚ) : List Snapshot :=
  if db.any (fun s => s.date = date) then
    db.map (fun s => if s.date = date then { s with value := value } else s)
  else
    db ++ [{ date := date, value := value }]

/-- Response of the snapshot POST route (route.ts lines 88-151): the
"no products" success, the "snapshot created" success with its statistics
payload, or the generic failure response. -/
inductive SnapshotResponse where
  | noProducts
  | created (snapshot : Snapshot) (totalValue totalReturn totalReturnPercentage : ℚ)
  | failure
  deriving DecidableEq

/-- The current-price-building loop of the snapshot POST route (route.ts
lines 101-118): Yahoo products get their fetched EUR price (skipped when the
fetch fails), custom products get their computed value (a computation error
rejects the whole invocation). -/
def buildCurrentPrices (products : List FinancialProduct)
    (provider : String → Option ProviderQuote) (rateFetch : Option ExchangeRate)
    (now : ℤ) : Except String (List (String × ℚ)) :=
  match products with
  | [] => .ok []
  | p :: ps =>
    match p.detail with
    | .yahoo y =>
      match fetchYahooQuoteServer y.symbol (provider y.symbol) rateFetch now with
      | some quote =>
        match buildCurrentPrices ps provider rateFetch now with
        | .error e => .error e
        | .ok rest => .ok ((p.id, quote.regularMarketPrice) :: rest)
      | none => buildCurrentPrices ps provider rateFetch now
    | .custom c =>
      match calculateCustomProductValue c.initialInvestment
        c.annualReturnRate c.investmentDate (now.fdiv msPerDay) with
      | .error e => .error e
      | .ok value =>
        match buildCurrentPrices ps provider rateFetch now with
        | .error e => .error e
        | .ok rest => .ok ((p.id, value) :: rest)

/-- The snapshot POST route body after authentication (route.ts lines
88-151): empty product list short-circuits to a "no products" success;
otherwise prices are built, statistics computed, and one snapshot keyed by
today truncated to midnight is upserted; any thrown error yields the generic
failure response with no write. -/
def recordDailySnapshot (db : List Snapshot) (products : List FinancialProduct)
    (provider : String → Option ProviderQuote) (rateFetch : Option ExchangeRate)
    (now : ℤ) : List Snapshot × SnapshotResponse :=
  if products.isEmpty then (db, .noProducts)
  else
    match buildCurrentPrices products provider rateFetch now with
    | .error _ => (db, .failure)
    | .ok currentPrices =>
      match calculatePortfolioStatistics products currentPrices none (now.fdiv msPerDay) with
      | .error _ => (db, .failure)
      | .ok stats =>
        let today := msPerDay * now.fdiv msPerDay
        let db1 := upsertPortfolioSnapshot db today stats.totalValue
        (db1, .created { date := today, value := stats.totalValue }
          stats.totalValue stats.totalReturn stats.totalReturnPercentage)

/-- Cost basis in the sense of the specification: purchase price per unit
for a market-tracked product, initial investment for a fixed-rate product. -/
def costBasis (p : FinancialProduct) : ℚ :=
  match p.detail with
  | .yahoo y => y.purchasePrice
  | .custom c => c.initialInvestment

/-- Cost-basis contribution actually accumulated by the statistics service:
zero for market-tracked products, initial investment times quantity for
fixed-rate products. -/
def statsCostBasis (p : FinancialProduct) : ℚ :=
  match p.detail with
  | .yahoo _ => 0
  | .custom c => c.initialInvestment * p.quantity

/-- Concrete market-tracked product used in the concrete evaluations:
purchase price 10, quantity 2, symbol AAPL. -/
def yahooApple : FinancialProduct :=
  { id := "y1", name := "Apple", quantity := 2,
    detail := .yahoo { symbol := "AAPL", purchasePrice := 10, purchaseDate := 0 } }

/-- Concrete fixed-rate product used in the concrete evaluations:
investment 1000 at rate 0.05, quantity 1. -/
def customStd : FinancialProduct :=
  { id := "c1", name := "Deposit", quantity := 1,
    detail := .custom { annualReturnRate := 1/20, initialInvestment := 1000,
                        investmentDate := 0, currency := "EUR" } }

/-- Concrete fixed-rate product with a sub-cent investment of 0.008 at rate
0, quantity 1. -/
def customTiny : FinancialProduct :=
  { id := "c2", name := "Tiny", quantity := 1,
    detail := .custom { annualReturnRate := 0, initialInvestment := 1/125,
                        investmentDate := 0, currency := "EUR" } }

/-! ### Helper lemmas about rounding -/

/-- round2 is characterized by its integer-cent bracket. -/
theorem round2_eq (x : ℚ) (n : ℤ) (h1 : (n:ℚ) ≤ x * 100 + 1/2)
    (h2 : x * 100 + 1/2 < (n:ℚ) + 1) : round2 x = (n:ℚ)/100 := by
  unfold round2 jsRound
  rw [Int.floor_eq_iff.mpr ⟨h1, h2⟩]

/-- round2 fixes whole-cent amounts. -/
theorem round2_cents (n : ℤ) : round2 ((n:ℚ)/100) = (n:ℚ)/100 := by
  simp [round2, jsRound]
  norm_num

/-- round2 of zero is zero. -/
theorem round2_zero : round2 0 = 0 := by
  norm_num [round2, jsRound]

/-! ### Claim C4 -/

/-- C4: for principal > 0, annualRate ≥ -1 and evaluationDate ≥
investmentDate, the fixed-rate valuator returns
`principal * (1 + annualRate/365)^days` rounded to 2 decimals, with
`days` the whole-day difference of the two dates. -/
theorem claim_C4_holds (principal annualRate : ℚ) (investmentDate evaluationDate : ℤ)
    (hp : 0 < principal) (hr : -1 ≤ annualRate) (hd : investmentDate ≤ evaluationDate) :
    calculateCustomProductValueSync principal annualRate investmentDate evaluationDate =
      .ok (round2 (principal * (1 + annualRate / 365) ^ (evaluationDate - investmentDate).toNat)) := by
  unfold calculateCustomProductValueSync
  rw [if_neg (not_le.mpr hp), if_neg (not_lt.mpr hr), if_neg (by omega)]

/-- Witness for C4, instantiating Scenario A: principal 920 at rate 0.05 over
365 days yields exactly 967.17 after rounding. -/
theorem claim_C4_witness :
    (0:ℚ) < 920 ∧ (-1:ℚ) ≤ 1/20 ∧ (0:ℤ) ≤ 365 ∧
    calculateCustomProductValueSync 920 (1/20) 0 365 = .ok (96717/100) := by
  refine ⟨by norm_num, by norm_num, by norm_num, ?_⟩
  rw [claim_C4_holds 920 (1/20) 0 365 (by norm_num) (by norm_num) (by norm_num)]
  rw [show ((365:ℤ) - 0).toNat = 365 from rfl]
  norm_num [round2, jsRound]

/-! ### Claim C5 -/

/-- C5: when the current-rate fetch fails, conversion applies the fixed
fallback rate 0.92, so every amount maps to `round2 (amount * 0.92)`; in
particular 100 USD maps deterministically to 92.00 EUR. -/
theorem claim_C5_holds (usdAmount : ℚ) :
    convertToEur none usdAmount = round2 (usdAmount * (92/100)) ∧
    convertToEur none 100 = 92 := by
  constructor
  · rfl
  · norm_num [convertToEur, convertUsdToEur, FALLBACK_USD_TO_EUR_RATE, round2, jsRound]

/-! ### Claim C7 -/

/-- Counterexample to C7: with principal 0.015 (a legal positive amount that
is not a whole number of cents) and zero elapsed days, the valuator returns
0.02, not the principal itself. -/
theorem claim_C7_counterexample :
    calculateCustomProductValueSync (3/200) 0 0 0 = .ok (1/50) ∧ (1/50 : ℚ) ≠ 3/200 := by
  constructor
  · unfold calculateCustomProductValueSync
    norm_num [round2, jsRound]
  · norm_num

/-- C7 as amended: with zero elapsed days both valuator variants return
`round2 principal`; this equals the principal exactly exactly when the
principal is a whole number of cents. -/
theorem claim_C7_holds (principal annualRate : ℚ) (d : ℤ)
    (hp : 0 < principal) (hr : -1 ≤ annualRate) :
    calculateCustomProductValueSync principal annualRate d d = .ok (round2 principal) ∧
    calculateCustomProductValue principal annualRate d d = .ok (round2 principal) ∧
    (∀ n : ℤ, principal = (n:ℚ)/100 →
      calculateCustomProductValueSync principal annualRate d d = .ok principal) := by
  have hsync : calculateCustomProductValueSync principal annualRate d d = .ok (round2 principal) := by
    unfold calculateCustomProductValueSync
    rw [if_neg (not_le.mpr hp), if_neg (not_lt.mpr hr), if_neg (by omega)]
    norm_num
  have hasync : calculateCustomProductValue principal annualRate d d = .ok (round2 principal) := by
    unfold calculateCustomProductValue
    rw [if_neg (not_le.mpr hp), if_neg (not_lt.mpr hr), if_neg (by omega)]
    norm_num
  refine ⟨hsync, hasync, ?_⟩
  intro n hn
  rw [hsync, hn, round2_cents]

/-- Witness for C7: principal 1000 (Scenario C), rate 0.05, same dates:
the value is exactly 1000. -/
theorem claim_C7_witness :
    (0:ℚ) < 1000 ∧ (-1:ℚ) ≤ 1/20 ∧
    calculateCustomProductValueSync 1000 (1/20) 7 7 = .ok 1000 := by
  refine ⟨by norm_num, by norm_num, ?_⟩
  have h := (claim_C7_holds 1000 (1/20) 7 (by norm_num) (by norm_num)).2.2
    100000 (by norm_num)
  exact h

/-! ### Claim C8 -/

/-- Rounding to the cent with ties away from zero, following the words of
the specification (for comparison with the implementation's rounding). -/
def roundHalfAwayFromZeroCents (x : ℚ) : ℚ :=
  if 0 ≤ x then (⌊x * 100 + 1/2⌋ : ℚ) / 100
  else -((⌊-(x * 100) + 1/2⌋ : ℚ) / 100)

/-- Counterexample to C8: converting −0.025 at rate 1 returns −0.02 (the
code rounds the tie toward plus infinity), while rounding half away from
zero would give −0.03. -/
theorem claim_C8_counterexample :
    convertUsdToEur (-1/40) 1 = -1/50 ∧
    roundHalfAwayFromZeroCents ((-1/40) * 1) = -3/100 ∧
    convertUsdToEur (-1/40) 1 ≠ roundHalfAwayFromZeroCents ((-1/40) * 1) := by
  have h1 : convertUsdToEur (-1/40) 1 = -1/50 := by
    norm_num [convertUsdToEur, round2, jsRound]
  have h2 : roundHalfAwayFromZeroCents ((-1/40) * 1) = -3/100 := by
    rw [roundHalfAwayFromZeroCents, if_neg (by norm_num)]
    norm_num
  refine ⟨h1, h2, ?_⟩
  rw [h1, h2]
  norm_num

/-- C8 as amended: conversion returns `amount * rate` rounded to 2 decimal
places with ties toward plus infinity; amount 0 yields 0; negative amounts
pass through the same scaling; the rounding agrees with
round-half-away-from-zero whenever the product is non-negative. -/
theorem claim_C8_holds (usdAmount rate : ℚ) :
    convertUsdToEur usdAmount rate = round2 (usdAmount * rate) ∧
    convertUsdToEur 0 rate = 0 ∧
    (0 ≤ usdAmount * rate →
      convertUsdToEur usdAmount rate = roundHalfAwayFromZeroCents (usdAmount * rate)) := by
  refine ⟨rfl, ?_, ?_⟩
  · norm_num [convertUsdToEur, round2, jsRound]
  · intro h
    rw [show convertUsdToEur usdAmount rate = round2 (usdAmount * rate) from rfl]
    rw [roundHalfAwayFromZeroCents, if_pos h]
    rfl

/-- Witness for C8 at amount 3, rate 1/2: the product is non-negative and
the two roundings agree. -/
theorem claim_C8_witness :
    (0:ℚ) ≤ 3 * (1/2) ∧
    convertUsdToEur 3 (1/2) = roundHalfAwayFromZeroCents (3 * (1/2)) :=
  ⟨by norm_num, (claim_C8_holds 3 (1/2)).2.2 (by norm_num)⟩

/-! ### Claim C1 -/

/-- Counterexample to C1: one market-tracked holding whose quote fetch
failed (its price is absent from the price map) makes the statistics
service's valuation/aggregation run return an error instead of degrading
the holding to unit value 0. -/
theorem claim_C1_counterexample :
    calculatePortfolioStatistics [yahooApple] [] none 0 =
      .error "Current price required for Yahoo Finance products" := rfl

/-- C1 as amended: on the dashboard valuation path an unavailable market
quote degrades the holding's unit value to 0 without an error; the
statistics-service path used by the snapshot route instead raises an error
for a missing price (see the counterexample). -/
theorem claim_C1_holds (product : FinancialProduct) (y : YahooDetail)
    (resolveQuote : String → Option YahooQuote) (currentDate : ℤ)
    (hy : product.detail = .yahoo y) (hq : resolveQuote y.symbol = none) :
    dashboardCurrentValue product resolveQuote currentDate = .ok 0 := by
  simp [dashboardCurrentValue, hy, hq]

/-- Witness for C1 at the concrete Apple holding with a resolver that always
fails. -/
theorem claim_C1_witness :
    yahooApple.detail = .yahoo { symbol := "AAPL", purchasePrice := 10, purchaseDate := 0 } ∧
    (fun _ : String => (none : Option YahooQuote)) "AAPL" = none ∧
    dashboardCurrentValue yahooApple (fun _ => none) 0 = .ok 0 :=
  ⟨rfl, rfl, claim_C1_holds yahooApple _ (fun _ => none) 0 rfl rfl⟩

/-! ### Claim C2 -/

/-- C2 (code-bug evidence): the profit-rate projection's result type has
exactly the three components daily, weekly and monthly — there is no annual
component — and on one fixed-rate holding (investment 1000, rate 0.05,
quantity 1) it evaluates to daily 0.14, weekly 0.96 and monthly 4.11, the
daily sum rounded once and the weekly/monthly figures rounded independently
from the unrounded daily sum. -/
theorem claim_C2_holds :
    (∀ r : ProfitRates, r = { daily := r.daily, weekly := r.weekly, monthly := r.monthly }) ∧
    calculateProfitRatesSync [customStd] = { daily := 7/50, weekly := 24/25, monthly := 411/100 } := by
  constructor
  · intro r; rfl
  · have h0 : calculateProfitRatesSync [customStd] =
        { daily := round2 (0 + calculateDailyProfit 1000 (1/20) 1)
          weekly := round2 ((0 + calculateDailyProfit 1000 (1/20) 1) * 7)
          monthly := round2 ((0 + calculateDailyProfit 1000 (1/20) 1) * 30) } := rfl
    rw [h0]
    simp only [ProfitRates.mk.injEq]
    refine ⟨?_, ?_, ?_⟩ <;> norm_num [calculateDailyProfit, round2, jsRound]

/-! ### Claim C3 -/

/-- Evaluation rule for the statistics aggregation with no previous-day
map, once every per-product valuation has succeeded. -/
theorem calculatePortfolioStatistics_ok_none (products : List FinancialProduct)
    (prices : List (String × ℚ)) (d : ℤ) (pvs : List ProductValue)
    (hm : mapExcept (fun p => calculateProductValue p (priceFor prices p) d) products = .ok pvs) :
    calculatePortfolioStatistics products prices none d =
      .ok { totalValue := round2 ((pvs.map (fun v => v.currentValue)).sum)
            totalInvestment := round2 ((pvs.map (fun v => v.initialInvestment)).sum)
            totalReturn := round2 ((pvs.map (fun v => v.currentValue)).sum -
              (pvs.map (fun v => v.initialInvestment)).sum)
            totalReturnPercentage := round2
              (if (pvs.map (fun v => v.initialInvestment)).sum > 0 then
                ((pvs.map (fun v => v.currentValue)).sum -
                  (pvs.map (fun v => v.initialInvestment)).sum) /
                  (pvs.map (fun v => v.initialInvestment)).sum * 100
              else 0)
            dailyChange := round2 0
            dailyChangePercentage := round2 0
            productCount := products.length } := by
  unfold calculatePortfolioStatistics
  rw [hm]

/-- Counterexample to C3: for a market-tracked holding with purchase price
10 and quantity 2 the statistics service reports totalCostBasis 0, not the
claimed purchase price times quantity (20). -/
theorem claim_C3_counterexample :
    calculatePortfolioStatistics [yahooApple] [("y1", 5)] none 0 =
      .ok { totalValue := 10, totalInvestment := 0, totalReturn := 10,
            totalReturnPercentage := 0, dailyChange := 0, dailyChangePercentage := 0,
            productCount := 1 } ∧
    (0 : ℚ) ≠ 10 * 2 := by
  constructor
  · have hm : mapExcept
        (fun p => calculateProductValue p (priceFor [("y1", 5)] p) 0) [yahooApple] =
        .ok [{ productId := "y1", name := "Apple", currentValue := 5 * 2,
               initialInvestment := 0 }] := rfl
    rw [calculatePortfolioStatistics_ok_none _ _ _ _ hm]
    simp only [Except.ok.injEq, PortfolioStatistics.mk.injEq, List.map_cons, List.map_nil,
      List.sum_cons, List.sum_nil, List.length_cons, List.length_nil]
    norm_num [round2, jsRound]
  · norm_num

/-- Per-product cost-basis fact behind C3: a successful calculateProductValue
reports initial investment `statsCostBasis`, in particular 0 for any
market-tracked product. -/
theorem calculateProductValue_ok_initialInvestment :
    ∀ (p : FinancialProduct) (price : Option ℚ) (d : ℤ) (v : ProductValue),
    calculateProductValue p price d = .ok v → v.initialInvestment = statsCostBasis p := by
  rintro ⟨pid, pname, qty, detail⟩ price d v h
  cases detail with
  | yahoo y =>
    cases price with
    | none => simp [calculateProductValue] at h
    | some q =>
      by_cases hq : q = 0
      · simp [calculateProductValue, hq] at h
      · simp only [calculateProductValue, if_neg hq] at h
        cases h
        rfl
  | custom c =>
    cases hc : calculateCustomProductValue c.initialInvestment c.annualReturnRate
        c.investmentDate d with
    | error e => simp [calculateProductValue, hc] at h
    | ok w =>
      simp only [calculateProductValue, hc] at h
      cases h
      rfl

/-- Sum fact behind C3: when every per-product valuation succeeds, the
accumulated initial investments sum to the statsCostBasis contributions. -/
theorem mapExcept_sum_initialInvestment (prices : List (String × ℚ)) (d : ℤ) :
    ∀ (products : List FinancialProduct) (pvs : List ProductValue),
    mapExcept (fun p => calculateProductValue p (priceFor prices p) d) products = .ok pvs →
    (pvs.map (fun v => v.initialInvestment)).sum = (products.map statsCostBasis).sum := by
  intro products
  induction products with
  | nil =>
    intro pvs h
    simp only [mapExcept] at h
    cases h
    simp
  | cons p ps ih =>
    intro pvs h
    unfold mapExcept at h
    cases hf : calculateProductValue p (priceFor prices p) d with
    | error e => rw [hf] at h; exact absurd h (by simp)
    | ok v =>
      rw [hf] at h
      cases hr : mapExcept (fun q => calculateProductValue q (priceFor prices q) d) ps with
      | error e => rw [hr] at h; exact absurd h (by simp)
      | ok vs =>
        rw [hr] at h
        cases h
        simp only [List.map_cons, List.sum_cons, ih vs hr,
          calculateProductValue_ok_initialInvestment p (priceFor prices p) d v hf]

/-- Step fact behind C3: each dashboard reduce step adds the
specification's cost basis times quantity to totalInvestment. -/
theorem dashboardStep_totalInvestment (acc : DashboardStats) (pv : FinancialProduct × ℚ) :
    (dashboardStep acc pv).totalInvestment = acc.totalInvestment + costBasis pv.1 * pv.1.quantity := by
  obtain ⟨p, val⟩ := pv
  cases hd : p.detail <;> simp [dashboardStep, costBasis, hd]

/-- Fold fact behind C3. -/
theorem dashboardReduce_foldl_totalInvestment :
    ∀ (pw : List (FinancialProduct × ℚ)) (acc : DashboardStats),
    (pw.foldl dashboardStep acc).totalInvestment =
      acc.totalInvestment + (pw.map (fun x => costBasis x.1 * x.1.quantity)).sum := by
  intro pw
  induction pw with
  | nil => intro acc; simp
  | cons x xs ih =>
    intro acc
    simp only [List.foldl_cons, List.map_cons, List.sum_cons, ih, dashboardStep_totalInvestment]
    ring

/-- C3 as amended: the dashboard-client aggregation accumulates
totalCostBasis as claimed (purchase price for market-tracked, initial
investment for fixed-rate, each times quantity), while the statistics
service counts market-tracked cost basis as 0, so its totalCostBasis is the
rounded sum of the fixed-rate contributions only. -/
theorem claim_C3_holds :
    (∀ pw : List (FinancialProduct × ℚ),
      (dashboardReduce pw).totalInvestment =
        (pw.map (fun x => costBasis x.1 * x.1.quantity)).sum) ∧
    (∀ (products : List FinancialProduct) (prices : List (String × ℚ)) (d : ℤ)
      (stats : PortfolioStatistics),
      calculatePortfolioStatistics products prices none d = .ok stats →
      stats.totalInvestment = round2 ((products.map statsCostBasis).sum)) := by
  constructor
  · intro pw
    rw [dashboardReduce, dashboardReduce_foldl_totalInvestment]
    simp
  · intro products prices d stats h
    unfold calculatePortfolioStatistics at h
    cases hm : mapExcept (fun p => calculateProductValue p (priceFor prices p) d) products with
    | error e => rw [hm] at h; exact absurd h (by simp)
    | ok pvs =>
      rw [hm] at h
      cases h
      simp only
      rw [mapExcept_sum_initialInvestment prices d products pvs hm]

/-- Concrete fixed-rate product with rate 0 used in concrete aggregation
runs: investment 1000, quantity 1. -/
def customFlat : FinancialProduct :=
  { id := "c3", name := "Flat", quantity := 1,
    detail := .custom { annualReturnRate := 0, initialInvestment := 1000,
                        investmentDate := 0, currency := "EUR" } }

/-- Witness for C3 at one fixed-rate holding: the statistics service
reports its initial investment as the cost basis. -/
theorem claim_C3_witness :
    calculatePortfolioStatistics [customFlat] [] none 0 =
      .ok { totalValue := 1000, totalInvestment := 1000, totalReturn := 0,
            totalReturnPercentage := 0, dailyChange := 0, dailyChangePercentage := 0,
            productCount := 1 } ∧
    (1000 : ℚ) = round2 (([customFlat].map statsCostBasis).sum) := by
  have hval : round2 (1000 * (1 + 0/365) ^ ((0:ℤ) - 0).toNat) = 1000 := by
    rw [show ((0:ℤ) - 0).toNat = 0 from rfl]
    norm_num [round2, jsRound]
  have h : calculatePortfolioStatistics [customFlat] [] none 0 =
      .ok { totalValue := 1000, totalInvestment := 1000, totalReturn := 0,
            totalReturnPercentage := 0, dailyChange := 0, dailyChangePercentage := 0,
            productCount := 1 } := by
    have hm : mapExcept
        (fun p => calculateProductValue p (priceFor [] p) 0) [customFlat] =
        .ok [{ productId := "c3", name := "Flat",
               currentValue := round2 (1000 * (1 + 0/365) ^ ((0:ℤ) - 0).toNat) * 1,
               initialInvestment := 1000 * 1 }] := rfl
    rw [calculatePortfolioStatistics_ok_none _ _ _ _ hm]
    simp only [List.map_cons, List.map_nil, List.sum_cons, List.sum_nil, List.length_cons,
      List.length_nil, hval, Except.ok.injEq, PortfolioStatistics.mk.injEq]
    norm_num [round2, jsRound]
  refine ⟨h, ?_⟩
  have h2 := claim_C3_holds.2 [customFlat] [] 0 _ h
  exact h2

/-! ### Claim C6 -/

/-- Concrete market-tracked product with fractional quantity 0.006 at unit
price 1. -/
def yahooMicro : FinancialProduct :=
  { id := "y2", name := "Micro", quantity := 3/500,
    detail := .yahoo { symbol := "MSFT", purchasePrice := 1, purchaseDate := 0 } }

/-- Concrete fixed-rate product with fractional quantity 0.008 at rate 0
and unit investment 1. -/
def customMicro : FinancialProduct :=
  { id := "c4", name := "CMicro", quantity := 1/125,
    detail := .custom { annualReturnRate := 0, initialInvestment := 1,
                        investmentDate := 0, currency := "EUR" } }

/-- Counterexample to C6: a run whose rounded fields violate the identity —
it returns totalValue 0.01, totalCostBasis 0.01 and totalReturn 0.01, yet
0.01 ≠ 0.01 − 0.01. -/
theorem claim_C6_counterexample :
    calculatePortfolioStatistics [yahooMicro, customMicro] [("y2", 1)] none 0 =
      .ok { totalValue := 1/100, totalInvestment := 1/100, totalReturn := 1/100,
            totalReturnPercentage := 75, dailyChange := 0, dailyChangePercentage := 0,
            productCount := 2 } ∧
    (1/100 : ℚ) ≠ 1/100 - 1/100 := by
  constructor
  · have hm : mapExcept
        (fun p => calculateProductValue p (priceFor [("y2", 1)] p) 0)
        [yahooMicro, customMicro] =
        .ok [{ productId := "y2", name := "Micro", currentValue := 1 * (3/500),
               initialInvestment := 0 },
             { productId := "c4", name := "CMicro",
               currentValue := round2 (1 * (1 + 0/365) ^ ((0:ℤ) - 0).toNat) * (1/125),
               initialInvestment := 1 * (1/125) }] := rfl
    rw [calculatePortfolioStatistics_ok_none _ _ _ _ hm]
    have hval : round2 (1 * (1 + 0/365) ^ ((0:ℤ) - 0).toNat) = 1 := by
      rw [show ((0:ℤ) - 0).toNat = 0 from rfl]
      norm_num [round2, jsRound]
    simp only [List.map_cons, List.map_nil, List.sum_cons, List.sum_nil, List.length_cons,
      List.length_nil, hval, Except.ok.injEq, PortfolioStatistics.mk.injEq]
    norm_num [round2, jsRound]
  · norm_num

/-- C6 as amended: the identity holds on the unrounded aggregates — the
record rounds a raw total value V and raw cost basis I componentwise and
totalReturn is the rounding of V − I (so the rounded fields can miss the
identity by a cent), and totalReturnPercentage is 0 whenever the raw cost
basis is not positive (in particular when it is 0). -/
theorem claim_C6_holds (products : List FinancialProduct)
    (prices : List (String × ℚ)) (d : ℤ) (stats : PortfolioStatistics)
    (hne : products ≠ [])
    (h : calculatePortfolioStatistics products prices none d = .ok stats) :
    ∃ V I : ℚ,
      stats.totalValue = round2 V ∧
      stats.totalInvestment = round2 I ∧
      stats.totalReturn = round2 (V - I) ∧
      (I ≤ 0 → stats.totalReturnPercentage = 0) := by
  unfold calculatePortfolioStatistics at h
  cases hm : mapExcept (fun p => calculateProductValue p (priceFor prices p) d) products with
  | error e => rw [hm] at h; exact absurd h (by simp)
  | ok pvs =>
    rw [hm] at h
    cases h
    refine ⟨(pvs.map (fun v => v.currentValue)).sum,
      (pvs.map (fun v => v.initialInvestment)).sum, rfl, rfl, rfl, ?_⟩
    intro hI
    show round2 (if (pvs.map (fun v => v.initialInvestment)).sum > 0 then
      ((pvs.map (fun v => v.currentValue)).sum - (pvs.map (fun v => v.initialInvestment)).sum) /
        (pvs.map (fun v => v.initialInvestment)).sum * 100 else 0) = 0
    rw [if_neg (not_lt.mpr hI), round2_zero]

/-- Concrete evaluation shared by the witnesses: the statistics of the
single rate-0 product customFlat, for any price map and any evaluation date
equal to day 0. -/
theorem stats_customFlat_eval (prices : List (String × ℚ)) (d : ℤ) (hd : d = 0) :
    calculatePortfolioStatistics [customFlat] prices none d =
      .ok { totalValue := 1000, totalInvestment := 1000, totalReturn := 0,
            totalReturnPercentage := 0, dailyChange := 0, dailyChangePercentage := 0,
            productCount := 1 } := by
  subst hd
  have hval : round2 (1000 * (1 + 0/365) ^ ((0:ℤ) - 0).toNat) = 1000 := by
    rw [show ((0:ℤ) - 0).toNat = 0 from rfl]
    norm_num [round2, jsRound]
  have hm : mapExcept
      (fun p => calculateProductValue p (priceFor prices p) 0) [customFlat] =
      .ok [{ productId := "c3", name := "Flat",
             currentValue := round2 (1000 * (1 + 0/365) ^ ((0:ℤ) - 0).toNat) * 1,
             initialInvestment := 1000 * 1 }] := rfl
  rw [calculatePortfolioStatistics_ok_none _ _ _ _ hm]
  simp only [List.map_cons, List.map_nil, List.sum_cons, List.sum_nil, List.length_cons,
    List.length_nil, hval, Except.ok.injEq, PortfolioStatistics.mk.injEq]
  norm_num [round2, jsRound]

/-- Witness for C6 at the single rate-0 holding. -/
theorem claim_C6_witness :
    ([customFlat] : List FinancialProduct) ≠ [] ∧
    ∃ V I : ℚ,
      ({ totalValue := 1000, totalInvestment := 1000, totalReturn := 0,
         totalReturnPercentage := 0, dailyChange := 0, dailyChangePercentage := 0,
         productCount := 1 } : PortfolioStatistics).totalValue = round2 V ∧
      ({ totalValue := 1000, totalInvestment := 1000, totalReturn := 0,
         totalReturnPercentage := 0, dailyChange := 0, dailyChangePercentage := 0,
         productCount := 1 } : PortfolioStatistics).totalInvestment = round2 I ∧
      ({ totalValue := 1000, totalInvestment := 1000, totalReturn := 0,
         totalReturnPercentage := 0, dailyChange := 0, dailyChangePercentage := 0,
         productCount := 1 } : PortfolioStatistics).totalReturn = round2 (V - I) ∧
      (I ≤ 0 →
        ({ totalValue := 1000, totalInvestment := 1000, totalReturn := 0,
           totalReturnPercentage := 0, dailyChange := 0, dailyChangePercentage := 0,
           productCount := 1 } : PortfolioStatistics).totalReturnPercentage = 0) :=
  ⟨by simp,
   claim_C6_holds [customFlat] [] 0 _ (by simp) (stats_customFlat_eval [] 0 rfl)⟩

/-! ### Claim C10 -/

/-- C10: whenever the market quote resolver returns a quote, its currency is
EUR, its originalCurrency preserves the provider currency with default USD,
and a natively-EUR price passes through unconverted. -/
theorem claim_C10_holds (symbol : String) (provider : Option ProviderQuote)
    (rateFetch : Option ExchangeRate) (now : ℤ) (q : YahooQuote)
    (h : fetchYahooQuoteServer symbol provider rateFetch now = some q) :
    q.currency = "EUR" ∧
    ∃ (pq : ProviderQuote) (price : ℚ), provider = some pq ∧
      pq.regularMarketPrice = some price ∧
      q.originalCurrency = jsOrStr pq.currency "USD" ∧
      (jsOrStr pq.currency "USD" = "EUR" → q.regularMarketPrice = price) := by
  unfold fetchYahooQuoteServer at h
  by_cases ht : (jsTrim symbol).length = 0
  · rw [if_pos ht] at h
    exact absurd h (by simp)
  · rw [if_neg ht] at h
    cases provider with
    | none => exact absurd h (by simp)
    | some pq =>
      obtain ⟨psym, pprice, pcur, ptime, pshort, plong⟩ := pq
      cases pprice with
      | none => exact absurd h (by simp)
      | some price =>
        cases h
        refine ⟨rfl, ⟨psym, some price, pcur, ptime, pshort, plong⟩, price, rfl, rfl, rfl, ?_⟩
        intro hc
        show (if jsOrStr pcur "USD" = "EUR" then price
          else convertToEur rateFetch price) = price
        rw [if_pos hc]

/-- Concrete provider quote natively in EUR. -/
def pqEUR : ProviderQuote :=
  { symbol := "SAP", regularMarketPrice := some 100, currency := some "EUR",
    regularMarketTime := some 0, shortName := none, longName := none }

/-- The resolved quote for pqEUR. -/
def qEUR : YahooQuote :=
  { symbol := "SAP", regularMarketPrice := 100, regularMarketPriceUsd := 100,
    regularMarketTime := 0, currency := "EUR", originalCurrency := "EUR",
    shortName := none, longName := none }

/-- Witness for C10 at a provider quote natively in EUR. -/
theorem claim_C10_witness :
    fetchYahooQuoteServer "SAP" (some pqEUR) none 0 = some qEUR ∧
    qEUR.currency = "EUR" ∧
    qEUR.originalCurrency = jsOrStr pqEUR.currency "USD" ∧
    qEUR.regularMarketPrice = 100 := by
  have h : fetchYahooQuoteServer "SAP" (some pqEUR) none 0 = some qEUR := rfl
  exact ⟨h, (claim_C10_holds "SAP" (some pqEUR) none 0 qEUR h).1, rfl, rfl⟩

/-! ### Claim C9 -/

/-- The upserted snapshot is present after the upsert. -/
theorem upsertPortfolioSnapshot_mem (db : List Snapshot) (d : ℤ) (v : ℚ) :
    ({ date := d, value := v } : Snapshot) ∈ upsertPortfolioSnapshot db d v := by
  by_cases h : db.any (fun s => s.date = d)
  · simp only [upsertPortfolioSnapshot, if_pos h]
    rw [List.any_eq_true] at h
    obtain ⟨s, hs, hd⟩ := h
    simp only [decide_eq_true_eq] at hd
    refine List.mem_map.mpr ⟨s, hs, ?_⟩
    rw [if_pos hd]
    cases s
    simp_all
  · simp [upsertPortfolioSnapshot, h]

/-- After the upsert, every snapshot carrying the upserted date is the
upserted snapshot. -/
theorem upsertPortfolioSnapshot_unique (db : List Snapshot) (d : ℤ) (v : ℚ) :
    ∀ s ∈ upsertPortfolioSnapshot db d v, s.date = d →
      s = { date := d, value := v } := by
  intro s hs hsd
  by_cases h : db.any (fun t => t.date = d)
  · simp only [upsertPortfolioSnapshot, if_pos h] at hs
    obtain ⟨t, ht, rfl⟩ := List.mem_map.mp hs
    by_cases htd : t.date = d
    · rw [if_pos htd]
      cases t
      simp_all
    · rw [if_neg htd] at hsd ⊢
      exact absurd hsd htd
  · simp only [upsertPortfolioSnapshot, if_neg h] at hs
    rcases List.mem_append.mp hs with hdb | hlast
    · rw [List.any_eq_true] at h
      push_neg at h
      exact absurd (by simpa using (h s hdb)) (by simp [hsd])
    · simpa using hlast

/-- Snapshots with other dates are untouched by the upsert. -/
theorem upsertPortfolioSnapshot_mem_iff (db : List Snapshot) (d : ℤ) (v : ℚ)
    (s : Snapshot) (hsd : s.date ≠ d) :
    s ∈ upsertPortfolioSnapshot db d v ↔ s ∈ db := by
  by_cases h : db.any (fun t => t.date = d)
  · simp only [upsertPortfolioSnapshot, if_pos h]
    constructor
    · intro hs
      obtain ⟨t, ht, hteq⟩ := List.mem_map.mp hs
      by_cases htd : t.date = d
      · rw [if_pos htd] at hteq
        exact absurd (show s.date = d by rw [← hteq]; exact htd) hsd
      · rw [if_neg htd] at hteq
        rw [← hteq]; exact ht
    · intro hs
      refine List.mem_map.mpr ⟨s, hs, ?_⟩
      rw [if_neg hsd]
  · simp only [upsertPortfolioSnapshot, if_neg h]
    constructor
    · intro hs
      rcases List.mem_append.mp hs with hdb | hlast
      · exact hdb
      · exact absurd (by simpa using hlast) (by intro he; exact hsd (by rw [he]))
    · intro hs
      exact List.mem_append.mpr (Or.inl hs)

/-- The upsert preserves at-most-one-snapshot-per-date. -/
theorem upsertPortfolioSnapshot_nodup (db : List Snapshot) (d : ℤ) (v : ℚ)
    (hnd : (db.map Snapshot.date).Nodup) :
    ((upsertPortfolioSnapshot db d v).map Snapshot.date).Nodup := by
  by_cases h : db.any (fun t => t.date = d)
  · simp only [upsertPortfolioSnapshot, if_pos h]
    have : (db.map (fun s => if s.date = d then { s with value := v } else s)).map Snapshot.date
        = db.map Snapshot.date := by
      rw [List.map_map]
      refine List.map_congr_left ?_
      intro t _
      by_cases htd : t.date = d <;> simp [htd]
    rw [this]
    exact hnd
  · simp only [upsertPortfolioSnapshot, if_neg h]
    rw [List.map_append]
    have hnotmem : d ∉ db.map Snapshot.date := by
      rw [List.any_eq_true] at h
      push_neg at h
      intro hmem
      obtain ⟨t, ht, htd⟩ := List.mem_map.mp hmem
      exact absurd (by simpa using h t ht) (by simp [htd])
    simp [List.nodup_append, hnd, hnotmem]

/-- Counterexample to C9: a non-empty holding list with an unpriceable
market holding writes nothing and produces the generic failure response,
not a written snapshot with statistics. -/
theorem claim_C9_counterexample :
    recordDailySnapshot [] [yahooApple] (fun _ => none) none 0 = ([], .failure) := rfl

/-- C9 as amended: an empty holding list yields the "no holdings" success
without any write; a non-empty list whose price building and aggregation
succeed upserts exactly one snapshot keyed by the current date truncated to
midnight (the key has no time component, other dates are untouched, and
at-most-one-per-date is preserved) and returns the written snapshot with
the statistics; a failing valuation yields the failure response with no
write (see the counterexample). -/
theorem claim_C9_holds :
    (∀ (db : List Snapshot) (provider : String → Option ProviderQuote)
       (rateFetch : Option ExchangeRate) (now : ℤ),
      recordDailySnapshot db [] provider rateFetch now = (db, .noProducts)) ∧
    (∀ (db : List Snapshot) (products : List FinancialProduct)
       (provider : String → Option ProviderQuote) (rateFetch : Option ExchangeRate)
       (now : ℤ) (prices : List (String × ℚ)) (stats : PortfolioStatistics),
      products ≠ [] →
      buildCurrentPrices products provider rateFetch now = .ok prices →
      calculatePortfolioStatistics products prices none (now.fdiv msPerDay) = .ok stats →
      recordDailySnapshot db products provider rateFetch now =
        (upsertPortfolioSnapshot db (msPerDay * now.fdiv msPerDay) stats.totalValue,
         .created { date := msPerDay * now.fdiv msPerDay, value := stats.totalValue }
           stats.totalValue stats.totalReturn stats.totalReturnPercentage) ∧
      (msPerDay * now.fdiv msPerDay) % msPerDay = 0 ∧
      ({ date := msPerDay * now.fdiv msPerDay, value := stats.totalValue } : Snapshot) ∈
        upsertPortfolioSnapshot db (msPerDay * now.fdiv msPerDay) stats.totalValue ∧
      (∀ s ∈ upsertPortfolioSnapshot db (msPerDay * now.fdiv msPerDay) stats.totalValue,
        s.date = msPerDay * now.fdiv msPerDay →
        s = { date := msPerDay * now.fdiv msPerDay, value := stats.totalValue }) ∧
      (∀ s : Snapshot, s.date ≠ msPerDay * now.fdiv msPerDay →
        (s ∈ upsertPortfolioSnapshot db (msPerDay * now.fdiv msPerDay) stats.totalValue ↔
          s ∈ db)) ∧
      ((db.map Snapshot.date).Nodup →
        ((upsertPortfolioSnapshot db (msPerDay * now.fdiv msPerDay) stats.totalValue).map
          Snapshot.date).Nodup)) := by
  constructor
  · intro db provider rateFetch now
    rfl
  · intro db products provider rateFetch now prices stats hne h1 h2
    refine ⟨?_, Int.mul_emod_right _ _,
      upsertPortfolioSnapshot_mem db _ _,
      upsertPortfolioSnapshot_unique db _ _,
      fun s hs => upsertPortfolioSnapshot_mem_iff db _ _ s hs,
      upsertPortfolioSnapshot_nodup db _ _⟩
    cases products with
    | nil => exact absurd rfl hne
    | cons p ps =>
      simp only [recordDailySnapshot, List.isEmpty_cons, Bool.false_eq_true, if_false]
      simp only [h1, h2]

/-- Witness for C9: one rate-0 holding, every external fetch failing, run at
instant 0 on an empty store: one snapshot for day 0 with value 1000 is
created and the response carries it with the statistics. -/
theorem claim_C9_witness :
    recordDailySnapshot [] [customFlat] (fun _ => none) none 0 =
      (upsertPortfolioSnapshot [] (msPerDay * Int.fdiv 0 msPerDay) 1000,
       .created { date := msPerDay * Int.fdiv 0 msPerDay, value := 1000 } 1000 0 0) := by
  have hprices : buildCurrentPrices [customFlat] (fun _ => none) none 0 =
      .ok [("c3", round2 (1000 * (1 + 0/365) ^ (0:ℕ)))] := rfl
  have hstats : calculatePortfolioStatistics [customFlat]
      [("c3", round2 (1000 * (1 + 0/365) ^ (0:ℕ)))] none (Int.fdiv 0 msPerDay) =
      .ok { totalValue := 1000, totalInvestment := 1000, totalReturn := 0,
            totalReturnPercentage := 0, dailyChange := 0, dailyChangePercentage := 0,
            productCount := 1 } :=
    stats_customFlat_eval [("c3", round2 (1000 * (1 + 0/365) ^ (0:ℕ)))]
      (Int.fdiv 0 msPerDay) rfl
  exact (claim_C9_holds.2 [] [customFlat] (fun _ => none) none 0
    [("c3", round2 (1000 * (1 + 0/365) ^ (0:ℕ)))]
    { totalValue := 1000, totalInvestment := 1000, totalReturn := 0,
      totalReturnPercentage := 0, dailyChange := 0, dailyChangePercentage := 0,
      productCount := 1 }
    (by simp) hprices hstats).1

end SimpleFinance
